import Mathlib

/-!
Verification of the options strategy simulator core.

The embedding works over the rationals. The host math library
(numpy log, exp, sqrt and the scipy standard-normal cdf and pdf, plus the
fixed-point string formatting used by descriptions) is abstracted as a
record of functions `MathFns`; every algorithm of the repository is
translated literally from the source on top of that record. Properties
that depend on facts about the standard normal cdf take those facts
as explicit hypotheses (for example that the cdf is bounded by 0 and 1).
-/

/-- Host math primitives used by the pricing module: numpy log, exp and
sqrt, the scipy standard normal cdf and pdf, and the float formatting
used inside the description strings. -/
structure MathFns where
  log : ℚ → ℚ
  exp : ℚ → ℚ
  sqrt : ℚ → ℚ
  cdf : ℚ → ℚ
  pdf : ℚ → ℚ
  fmt : ℚ → String

/-- From src/options_pricing.py, black_scholes_price (lines 20 to 66).
At time_to_expiry ≤ 0 returns the intrinsic value; otherwise evaluates
the Black-Scholes formula and clamps the result at zero. The
option_type string is compared against "call"; every other string takes
the put branch, exactly as in the source. -/
def black_scholes_price (M : MathFns) (spot strike time_to_expiry risk_free_rate volatility : ℚ)
    (option_type : String) : ℚ :=
  if time_to_expiry ≤ 0 then
    if option_type = "call" then max (spot - strike) 0 else max (strike - spot) 0
  else
    let d1 := (M.log (spot / strike) + (risk_free_rate + 1/2 * volatility ^ 2) * time_to_expiry) /
      (volatility * M.sqrt time_to_expiry)
    let d2 := d1 - volatility * M.sqrt time_to_expiry
    let price :=
      if option_type = "call" then
        spot * M.cdf d1 - strike * M.exp (-risk_free_rate * time_to_expiry) * M.cdf d2
      else
        strike * M.exp (-risk_free_rate * time_to_expiry) * M.cdf (-d2) - spot * M.cdf (-d1)
    max price 0

/-- From src/options_pricing.py, black_scholes_delta (lines 69 to 106).
At expiry a step function; otherwise the cdf of d1 for a call and the
negated cdf of -d1 for a put. -/
def black_scholes_delta (M : MathFns) (spot strike time_to_expiry risk_free_rate volatility : ℚ)
    (option_type : String) : ℚ :=
  if time_to_expiry ≤ 0 then
    if option_type = "call" then (if strike < spot then 1 else 0)
    else (if spot < strike then -1 else 0)
  else
    let d1 := (M.log (spot / strike) + (risk_free_rate + 1/2 * volatility ^ 2) * time_to_expiry) /
      (volatility * M.sqrt time_to_expiry)
    if option_type = "call" then M.cdf d1 else -(M.cdf (-d1))

/-- From src/options_pricing.py, black_scholes_vega (lines 109 to 140).
Zero at expiry; otherwise spot times the normal density of d1 times the
square root of time, scaled by 0.01. The option_type argument is never
consulted after the signature, exactly as in the source. -/
def black_scholes_vega (M : MathFns) (spot strike time_to_expiry risk_free_rate volatility : ℚ)
    (option_type : String) : ℚ :=
  if time_to_expiry ≤ 0 then 0
  else
    let d1 := (M.log (spot / strike) + (risk_free_rate + 1/2 * volatility ^ 2) * time_to_expiry) /
      (volatility * M.sqrt time_to_expiry)
    spot * M.pdf d1 * M.sqrt time_to_expiry * (1/100)

/-- From src/strategy_payoffs.py, long_call_payoff (lines 18 to 34):
intrinsic = maximum(spot - strike, 0), result = intrinsic - premium,
applied pointwise over the price grid. -/
def long_call_payoff (spot_prices : List ℚ) (strike premium : ℚ) : List ℚ :=
  spot_prices.map (fun s => max (s - strike) 0 - premium)

/-- From src/strategy_payoffs.py, long_put_payoff (lines 37 to 53). -/
def long_put_payoff (spot_prices : List ℚ) (strike premium : ℚ) : List ℚ :=
  spot_prices.map (fun s => max (strike - s) 0 - premium)

/-- From src/strategy_payoffs.py, bull_call_spread_payoff (lines 82 to
107): net_premium = lower_premium - higher_premium, and per grid point
the long call leg max(S - lower_strike, 0) plus the short call leg
-max(S - higher_strike, 0) minus the net premium. -/
def bull_call_spread_payoff (spot_prices : List ℚ)
    (lower_strike higher_strike lower_premium higher_premium : ℚ) : List ℚ :=
  let net_premium := lower_premium - higher_premium
  spot_prices.map (fun s => max (s - lower_strike) 0 + (-(max (s - higher_strike) 0)) - net_premium)

/-- The loop body of calculate_breakevens (src/strategy_payoffs.py,
lines 206 to 214), expressed over the list of (grid point, payoff)
pairs: for each adjacent pair, if the payoff product is ≤ 0 (sign
change) and the two payoffs differ, the linearly interpolated zero
crossing is emitted; a pair with equal payoffs is skipped. -/
def breakevenScan : List (ℚ × ℚ) → List ℚ
  | (x1, y1) :: (x2, y2) :: rest =>
    let tail := breakevenScan ((x2, y2) :: rest)
    if y1 * y2 ≤ 0 then
      if y1 ≠ y2 then (x1 - y1 * (x2 - x1) / (y2 - y1)) :: tail else tail
    else tail
  | _ => []

/-- From src/strategy_payoffs.py, calculate_breakevens (lines 193 to
215): evaluate the payoff function on the grid, scan adjacent pairs for
interpolated zero crossings, and return them sorted ascending. The
payoff functions of the repository are pointwise maps of the grid, so
zipping the grid with the payoff array reproduces the index-based
loop. -/
def calculate_breakevens (payoff_func : List ℚ → List ℚ) (spot_range : List ℚ) : List ℚ :=
  let payoffs := payoff_func spot_range
  List.insertionSort (· ≤ ·) (breakevenScan (spot_range.zip payoffs))

/-- From src/strategy_payoffs.py, calculate_max_profit_loss (lines 218
to 227). numpy max and min raise on a zero-size array, modelled by
`none`; on a nonempty array the pair (max, min) is returned. -/
def calculate_max_profit_loss (payoffs : List ℚ) : Option (ℚ × ℚ) :=
  match payoffs with
  | [] => none
  | x :: xs => some (xs.foldl max x, xs.foldl min x)

/-- Python dict read with a fallback: models both `d.get(k, dflt)` and
the bracket access `d[k]` (at every bracket-access site of the
repository the constructor has already inserted the key, so the
fallback is never consulted there). -/
def dget {α : Type} (d : List (String × α)) (k : String) (dflt : α) : α :=
  ((d.lookup k).getD dflt)

/-- Python dict write `d[k] = v`: replaces the value when the key is
present, otherwise appends, preserving insertion order as Python dicts
do. -/
def dset {α : Type} (d : List (String × α)) (k : String) (v : α) : List (String × α) :=
  if (d.lookup k).isSome then d.map (fun p => if p.1 = k then (k, v) else p)
  else d ++ [(k, v)]

/-- From src/strategy_analyzer.py, OptionsStrategy.__init__ state
(lines 39 to 67): market parameters, strategy name, and the four
per-leg dicts (premiums, strikes, option_types, positions). -/
structure OptionsStrategyState where
  spot : ℚ
  time_to_expiry : ℚ
  risk_free_rate : ℚ
  volatility : ℚ
  strategy_name : String
  premiums : List (String × ℚ)
  strikes : List (String × ℚ)
  option_types : List (String × String)
  positions : List (String × ℤ)

/-- OptionsStrategy.__init__ (src/strategy_analyzer.py, lines 39 to
67): stores the market parameters and starts with empty leg dicts. -/
def OptionsStrategy.init (spot time_to_expiry risk_free_rate volatility : ℚ)
    (strategy_name : String) : OptionsStrategyState :=
  { spot := spot, time_to_expiry := time_to_expiry, risk_free_rate := risk_free_rate
    volatility := volatility, strategy_name := strategy_name
    premiums := [], strikes := [], option_types := [], positions := [] }

/-- OptionsStrategy._price_option (src/strategy_analyzer.py, lines 69
to 81): return the override when given, otherwise the Black-Scholes
price at the stored market parameters. -/
def OptionsStrategyState.price_option (M : MathFns) (self : OptionsStrategyState)
    (strike : ℚ) (option_type : String) (premium_override : Option ℚ) : ℚ :=
  match premium_override with
  | some p => p
  | none => black_scholes_price M self.spot strike self.time_to_expiry
      self.risk_free_rate self.volatility option_type

/-- OptionsStrategy._calculate_greeks (src/strategy_analyzer.py, lines
83 to 109): folds over the strikes dict in insertion order, looking up
each leg kind and position sign, and accumulates position-weighted
delta and vega. Returns the pair (net delta, net vega). -/
def OptionsStrategyState.calculate_greeks (M : MathFns) (self : OptionsStrategyState) : ℚ × ℚ :=
  self.strikes.foldl
    (fun acc p =>
      let key := p.1
      let strike := p.2
      let option_type := dget self.option_types key ""
      let position := dget self.positions key 0
      let delta := black_scholes_delta M self.spot strike self.time_to_expiry
        self.risk_free_rate self.volatility option_type
      let vega := black_scholes_vega M self.spot strike self.time_to_expiry
        self.risk_free_rate self.volatility option_type
      (acc.1 + (position : ℚ) * delta, acc.2 + (position : ℚ) * vega))
    (0, 0)

/-- OptionsStrategy._interpret_risk (src/strategy_analyzer.py, lines
111 to 152): a deterministic rule table over the absolute net delta
(tiers 0.5 and 0.2) and absolute net vega (tiers 0.1 and 0.05),
assembled into a label string exactly as the source concatenates it. -/
def interpret_risk (delta vega : ℚ) : String :=
  let direction := if 1/2 < |delta| then "Strongly directional"
    else if 1/5 < |delta| then "Moderately directional"
    else "Direction-neutral"
  let bias := if 1/5 < |delta| then (if 0 < delta then "bullish" else "bearish") else ""
  let vol_sensitivity := if 1/10 < |vega| then "High volatility sensitivity"
    else if 1/20 < |vega| then "Moderate volatility sensitivity"
    else "Low volatility sensitivity"
  let vol_bias := if 1/20 < |vega| then (if 0 < vega then "benefits from" else "hurt by") else ""
  let interp := direction
  let interp := if bias ≠ "" then interp ++ " (" ++ bias ++ ")" else interp
  let interp := interp ++ ". " ++ vol_sensitivity
  let interp := if vol_bias ≠ "" then interp ++ " (" ++ vol_bias ++ " volatility increases)"
    else interp
  interp

/-- The analysis result dict returned by OptionsStrategy.analyze
(src/strategy_analyzer.py, lines 186 to 198). greeks is the pair
(net delta, net vega). -/
structure AnalysisResult where
  strategy_name : String
  spot_range : List ℚ
  payoffs : List ℚ
  greeks : ℚ × ℚ
  breakevens : List ℚ
  max_profit : ℚ
  max_loss : ℚ
  risk_interpretation : String
  premiums : List (String × ℚ)
  description : String
  initial_spot : ℚ
deriving DecidableEq

/-- LongCall state (src/strategy_analyzer.py, lines 219 to 236): the
base state plus the stored strike. -/
structure LongCallState where
  base : OptionsStrategyState
  strike : ℚ

/-- LongCall.__init__ (src/strategy_analyzer.py, lines 222 to 236):
build the base state with name "Long Call", price the call leg (or take
the override) and record premium, strike, kind and position under the
key "call". -/
def LongCall.init (M : MathFns) (spot strike time_to_expiry risk_free_rate volatility : ℚ)
    (premium_override : Option ℚ) : LongCallState :=
  let base := OptionsStrategy.init spot time_to_expiry risk_free_rate volatility "Long Call"
  let premium := base.price_option M strike "call" premium_override
  { base := { base with
      premiums := dset base.premiums "call" premium
      strikes := dset base.strikes "call" strike
      option_types := dset base.option_types "call" "call"
      positions := dset base.positions "call" 1 }
    strike := strike }

/-- LongCall.calculate_payoff (src/strategy_analyzer.py, lines 238 to
240): premium = overrides.get("call", stored premium) when an overrides
dict is passed, else the stored premium; delegates to long_call_payoff.
The method writes nothing to self, so the returned state is the
receiver. -/
def LongCallState.calculate_payoff (self : LongCallState) (spot_prices : List ℚ)
    (premium_overrides : Option (List (String × ℚ))) : List ℚ × LongCallState :=
  let premium := match premium_overrides with
    | some ov => dget ov "call" (dget self.base.premiums "call" 0)
    | none => dget self.base.premiums "call" 0
  (long_call_payoff spot_prices self.strike premium, self)

/-- LongCall.get_description (src/strategy_analyzer.py, lines 242 to
247), with the host float formatting abstracted as M.fmt. -/
def LongCallState.get_description (M : MathFns) (self : LongCallState) : String :=
  "Buy a call option with strike $" ++ M.fmt self.strike ++ ". " ++
  "Bullish strategy with limited downside (max loss = premium $" ++
  M.fmt (dget self.base.premiums "call" 0) ++ ") " ++
  "and unlimited upside potential. Breakeven at $" ++
  M.fmt (self.strike + dget self.base.premiums "call" 0) ++ "."

/-- OptionsStrategy.analyze (src/strategy_analyzer.py, lines 154 to
198) specialised to the LongCall payoff: payoffs, net Greeks,
breakevens through a closure re-invoking calculate_payoff with the same
overrides, max profit and loss (numpy max on an empty grid raises,
modelled as the error branch), risk label, and the result dict. No
attribute of self is ever assigned, so the post-call state is returned
alongside the result. -/
def LongCallState.analyze (M : MathFns) (self : LongCallState) (spot_range : List ℚ)
    (premium_overrides : Option (List (String × ℚ))) :
    Except String AnalysisResult × LongCallState :=
  let pr := self.calculate_payoff spot_range premium_overrides
  let payoffs := pr.1
  let self1 := pr.2
  let greeks := self1.base.calculate_greeks M
  let payoff_func : List ℚ → List ℚ := fun g => (self1.calculate_payoff g premium_overrides).1
  let breakevens := calculate_breakevens payoff_func spot_range
  match calculate_max_profit_loss payoffs with
  | none => (Except.error "zero-size array to reduction operation maximum", self1)
  | some pl =>
    (Except.ok
      { strategy_name := self1.base.strategy_name
        spot_range := spot_range
        payoffs := payoffs
        greeks := greeks
        breakevens := breakevens
        max_profit := pl.1
        max_loss := pl.2
        risk_interpretation := interpret_risk greeks.1 greeks.2
        premiums := self1.base.premiums
        description := self1.get_description M
        initial_spot := self1.base.spot }, self1)

/-- Concrete instantiation of the host primitives, used to evaluate the
embedding at specific inputs. Its cdf is constantly 1/2, which lies in
[0, 1] as the standard normal cdf does. -/
def testFns : MathFns :=
  { log := fun _ => 0
    exp := fun _ => 1
    sqrt := fun _ => 1
    cdf := fun _ => 1/2
    pdf := fun _ => 1
    fmt := fun q => toString q.num ++ "." ++ toString q.den }

/-- Zipping a list with its own image under f is the list of (point,
value) pairs; this is how the index loop of calculate_breakevens reads
the grid and the payoff array side by side. -/
theorem zip_self_map (f : ℚ → ℚ) (l : List ℚ) :
    l.zip (l.map f) = l.map (fun x => (x, f x)) := by
  induction l with
  | nil => rfl
  | cons x t ih => simp only [List.map_cons, List.zip_cons_cons, ih]

/-- Prepending one point to the scanned pair list can only add
interpolated crossings, never remove any. -/
theorem count_breakevenScan_cons (c : ℚ) (a : ℚ × ℚ) (t : List (ℚ × ℚ)) :
    List.count c (breakevenScan t) ≤ List.count c (breakevenScan (a :: t)) := by
  obtain ⟨x1, y1⟩ := a
  cases t with
  | nil => simp [breakevenScan]
  | cons b r =>
    obtain ⟨x2, y2⟩ := b
    simp only [breakevenScan]
    by_cases h1 : y1 * y2 ≤ 0
    · rw [if_pos h1]
      by_cases h2 : y1 ≠ y2
      · rw [if_pos h2, List.count_cons]
        exact Nat.le_add_right _ _
      · rw [if_neg h2]
    · rw [if_neg h1]

/-- Crossings found in a suffix of the pair list survive in the scan of
the whole list. -/
theorem count_breakevenScan_append (c : ℚ) (p t : List (ℚ × ℚ)) :
    List.count c (breakevenScan t) ≤ List.count c (breakevenScan (p ++ t)) := by
  induction p with
  | nil => simp
  | cons a p ih => exact le_trans ih (count_breakevenScan_cons c a (p ++ t))

/-- Scanning three consecutive points whose middle payoff is exactly
zero while both neighbours are nonzero emits the middle abscissa twice:
both adjacent pairs pass the sign-change product test and both linear
interpolations collapse to that abscissa. -/
theorem breakevenScan_zero_middle (x0 x1 x2 : ℚ) (y0 y2 : ℚ) (s : List (ℚ × ℚ))
    (h0 : y0 ≠ 0) (h2 : y2 ≠ 0) :
    breakevenScan ((x0, y0) :: (x1, 0) :: (x2, y2) :: s)
      = x1 :: x1 :: breakevenScan ((x2, y2) :: s) := by
  have e1 : x0 - y0 * (x1 - x0) / (0 - y0) = x1 := by
    rw [zero_sub, div_neg, mul_div_cancel_left₀ _ h0]
    ring
  have e2 : x1 - 0 * (x2 - x1) / (y2 - 0) = x1 := by
    simp
  simp only [breakevenScan]
  rw [if_pos (by simp : y0 * 0 ≤ 0), if_pos h0,
    if_pos (by simp : (0 : ℚ) * y2 ≤ 0), if_pos (Ne.symm h2), e1, e2]

/-- C8: in the breakeven search, a pair of consecutive grid points with
exactly equal payoffs contributes no interpolated crossing: if the
common payoff is nonzero the sign-change product test fails, and if it
is zero the equality guard skips the interpolation, so the division by
the payoff difference is never performed on a flat segment; the skip
returns the remaining scan unchanged rather than signalling an
error. -/
theorem flat_segment_contributes_no_breakeven (x1 x2 y : ℚ) (rest : List (ℚ × ℚ)) :
    breakevenScan ((x1, y) :: (x2, y) :: rest) = breakevenScan ((x2, y) :: rest) := by
  simp only [breakevenScan]
  by_cases hy : y * y ≤ 0
  · rw [if_pos hy, if_neg (by simp)]
  · rw [if_neg hy]

/-- C10: if the payoff at an interior grid point is exactly zero and
its two neighbours are nonzero, both adjacent pairs fire the
sign-change test, both interpolations resolve to that same point, and
the sorted breakeven list therefore contains that abscissa at least
twice (a duplicate entry). -/
theorem interior_zero_reported_twice (f : ℚ → ℚ) (p : List ℚ) (x0 x1 x2 : ℚ) (s : List ℚ)
    (h0 : f x0 ≠ 0) (h1 : f x1 = 0) (h2 : f x2 ≠ 0) :
    2 ≤ List.count x1 (calculate_breakevens (fun g => g.map f) (p ++ x0 :: x1 :: x2 :: s)) := by
  unfold calculate_breakevens
  rw [(List.perm_insertionSort _ _).count_eq, zip_self_map, List.map_append]
  refine le_trans ?_ (count_breakevenScan_append x1 (p.map fun x => (x, f x)) _)
  have hcore : (x0 :: x1 :: x2 :: s).map (fun x => (x, f x))
      = (x0, f x0) :: (x1, 0) :: (x2, f x2) :: s.map (fun x => (x, f x)) := by
    simp [h1]
  rw [hcore, breakevenScan_zero_middle x0 x1 x2 (f x0) (f x2) _ h0 h2]
  simp [List.count_cons]

/-- C10 witness: the grid [4, 5, 6] with payoff s - 5 has payoffs
[-1, 0, 1]; the interior zero at 5 is reported twice. -/
theorem interior_zero_reported_twice_witness :
    2 ≤ List.count 5 (calculate_breakevens (fun g => g.map (fun s => s - 5))
      (([] : List ℚ) ++ 4 :: 5 :: 6 :: [])) :=
  interior_zero_reported_twice (fun s => s - 5) [] 4 5 6 []
    (by norm_num) (by norm_num) (by norm_num)

/-- C3: for every spot, strike and non-positive time to expiry, the
pricer returns exactly the intrinsic value, max(spot - strike, 0) for a
call and max(strike - spot, 0) for a put, with the rate and the
volatility not occurring in the result. -/
theorem price_at_expiry_is_intrinsic (M : MathFns)
    (spot strike time_to_expiry risk_free_rate volatility : ℚ)
    (hs : 0 < spot) (hk : 0 < strike) (ht : time_to_expiry ≤ 0) :
    black_scholes_price M spot strike time_to_expiry risk_free_rate volatility "call"
        = max (spot - strike) 0 ∧
      black_scholes_price M spot strike time_to_expiry risk_free_rate volatility "put"
        = max (strike - spot) 0 := by
  constructor
  · unfold black_scholes_price
    rw [if_pos ht, if_pos rfl]
  · unfold black_scholes_price
    rw [if_pos ht, if_neg (by decide : ¬ ("put" = "call"))]

/-- C3 witness: at expiry the call struck at 90 with spot 100 is worth
its intrinsic value 10 and the put is worthless. -/
theorem price_at_expiry_is_intrinsic_witness :
    black_scholes_price testFns 100 90 0 (1/20) (1/5) "call" = max (100 - 90) 0 ∧
      black_scholes_price testFns 100 90 0 (1/20) (1/5) "put" = max (90 - 100) 0 :=
  price_at_expiry_is_intrinsic testFns 100 90 0 (1/20) (1/5)
    (by norm_num) (by norm_num) le_rfl

/-- C4: the pricer never returns a negative number: the expiry branch
returns a max with zero and the formula branch is clamped by max with
zero, for every input and either option kind. -/
theorem price_nonneg (M : MathFns)
    (spot strike time_to_expiry risk_free_rate volatility : ℚ) (option_type : String) :
    0 ≤ black_scholes_price M spot strike time_to_expiry risk_free_rate volatility option_type := by
  unfold black_scholes_price
  by_cases ht : time_to_expiry ≤ 0
  · rw [if_pos ht]
    by_cases hc : option_type = "call"
    · rw [if_pos hc]
      exact le_max_right _ _
    · rw [if_neg hc]
      exact le_max_right _ _
  · rw [if_neg ht]
    exact le_max_right _ _

/-- C5: vega never consults the option kind, so the call vega and the
put vega agree exactly (not merely within tolerance) at identical spot,
strike, time, rate and volatility. -/
theorem vega_call_eq_vega_put (M : MathFns)
    (spot strike time_to_expiry risk_free_rate volatility : ℚ) :
    black_scholes_vega M spot strike time_to_expiry risk_free_rate volatility "call"
      = black_scholes_vega M spot strike time_to_expiry risk_free_rate volatility "put" := rfl

/-- C6: with positive time to expiry, under the defining property of a
cumulative distribution that its values lie in [0, 1], the call delta
lies in [0, 1] and the put delta lies in [-1, 0]. -/
theorem delta_range (M : MathFns) (hcdf : ∀ x, 0 ≤ M.cdf x ∧ M.cdf x ≤ 1)
    (spot strike time_to_expiry risk_free_rate volatility : ℚ)
    (hs : 0 < spot) (hk : 0 < strike) (ht : 0 < time_to_expiry) (hv : 0 < volatility) :
    (0 ≤ black_scholes_delta M spot strike time_to_expiry risk_free_rate volatility "call" ∧
        black_scholes_delta M spot strike time_to_expiry risk_free_rate volatility "call" ≤ 1) ∧
      (-1 ≤ black_scholes_delta M spot strike time_to_expiry risk_free_rate volatility "put" ∧
        black_scholes_delta M spot strike time_to_expiry risk_free_rate volatility "put" ≤ 0) := by
  have hnt : ¬ time_to_expiry ≤ 0 := not_le.mpr ht
  have hcall : black_scholes_delta M spot strike time_to_expiry risk_free_rate volatility "call"
      = M.cdf ((M.log (spot / strike)
          + (risk_free_rate + 1/2 * volatility ^ 2) * time_to_expiry) /
        (volatility * M.sqrt time_to_expiry)) := by
    unfold black_scholes_delta
    rw [if_neg hnt]
    rfl
  have hput : black_scholes_delta M spot strike time_to_expiry risk_free_rate volatility "put"
      = -(M.cdf (-((M.log (spot / strike)
          + (risk_free_rate + 1/2 * volatility ^ 2) * time_to_expiry) /
        (volatility * M.sqrt time_to_expiry)))) := by
    unfold black_scholes_delta
    rw [if_neg hnt]
    rfl
  rw [hcall, hput]
  exact ⟨⟨(hcdf _).1, (hcdf _).2⟩, ⟨neg_le_neg (hcdf _).2, neg_nonpos.mpr (hcdf _).1⟩⟩

/-- C6 witness: with the concrete host functions (whose cdf is
constantly 1/2) the call delta at spot 100, strike 90, one year,
volatility 1/5 lies in [0, 1] and the put delta in [-1, 0]. -/
theorem delta_range_witness :
    (0 ≤ black_scholes_delta testFns 100 90 1 0 (1/5) "call" ∧
        black_scholes_delta testFns 100 90 1 0 (1/5) "call" ≤ 1) ∧
      (-1 ≤ black_scholes_delta testFns 100 90 1 0 (1/5) "put" ∧
        black_scholes_delta testFns 100 90 1 0 (1/5) "put" ≤ 0) :=
  delta_range testFns (fun x => ⟨by norm_num [testFns], by norm_num [testFns]⟩)
    100 90 1 0 (1/5) (by norm_num) (by norm_num) (by norm_num) (by norm_num)

/-- C7: with lower_strike ≤ higher_strike, every point of the
bull-call-spread payoff lies between -net_premium and
(higher_strike - lower_strike) - net_premium, where net_premium =
lower_premium - higher_premium. -/
theorem bull_call_spread_payoff_bounded (spot_prices : List ℚ)
    (lower_strike higher_strike lower_premium higher_premium : ℚ)
    (h : lower_strike ≤ higher_strike) :
    ∀ y ∈ bull_call_spread_payoff spot_prices lower_strike higher_strike
        lower_premium higher_premium,
      -(lower_premium - higher_premium) ≤ y ∧
        y ≤ (higher_strike - lower_strike) - (lower_premium - higher_premium) := by
  intro y hy
  simp only [bull_call_spread_payoff, List.mem_map] at hy
  obtain ⟨s, hs, rfl⟩ := hy
  have h1 : max (s - higher_strike) 0 ≤ max (s - lower_strike) 0 :=
    max_le_max (by linarith) le_rfl
  have h2 : max (s - lower_strike) 0 ≤ max (s - higher_strike) 0 + (higher_strike - lower_strike) :=
    max_le (by linarith [le_max_left (s - higher_strike) (0 : ℚ)])
      (by linarith [le_max_right (s - higher_strike) (0 : ℚ)])
  exact ⟨by linarith, by linarith⟩

/-- C1 counterexample: at the invalid input spot = -5 (with strike 100,
one year to expiry, volatility 1/5) the pricer does not signal any
failure: it proceeds into the formula branch and returns the clamped
value 105/2 for a put, and LongCall construction likewise completes,
storing the computed call premium for the invalid spot. -/
theorem invalid_input_prices_without_error :
    black_scholes_price testFns (-5) 100 1 0 (1/5) "put" = 105/2 ∧
      (LongCall.init testFns (-5) 100 1 0 (1/5) none).base.premiums
        = [("call", black_scholes_price testFns (-5) 100 1 0 (1/5) "call")] := by
  constructor
  · norm_num [black_scholes_price, testFns, if_neg (by decide : ¬ ("put" = "call"))]
  · rfl

/-- C1 amended: the pricer performs no input validation. For every
input with positive time to expiry, including non-positive spot,
non-positive strike or negative volatility, black_scholes_price
proceeds into the Black-Scholes formula and returns its clamped value;
no error is signalled anywhere. -/
theorem pricer_skips_validation (M : MathFns)
    (spot strike time_to_expiry risk_free_rate volatility : ℚ) (option_type : String)
    (ht : 0 < time_to_expiry) (hbad : spot ≤ 0 ∨ strike ≤ 0 ∨ volatility < 0) :
    black_scholes_price M spot strike time_to_expiry risk_free_rate volatility option_type =
      (let d1 := (M.log (spot / strike)
          + (risk_free_rate + 1/2 * volatility ^ 2) * time_to_expiry) /
          (volatility * M.sqrt time_to_expiry)
       let d2 := d1 - volatility * M.sqrt time_to_expiry
       let price :=
         if option_type = "call" then
           spot * M.cdf d1 - strike * M.exp (-risk_free_rate * time_to_expiry) * M.cdf d2
         else
           strike * M.exp (-risk_free_rate * time_to_expiry) * M.cdf (-d2) - spot * M.cdf (-d1)
       max price 0) := by
  unfold black_scholes_price
  rw [if_neg (not_le.mpr ht)]

/-- C1 witness: instantiating the amended statement at the invalid spot
-5 evaluates the formula branch to the concrete value 105/2. -/
theorem pricer_skips_validation_witness :
    black_scholes_price testFns (-5) 100 1 0 (1/5) "put" = 105/2 :=
  (pricer_skips_validation testFns (-5) 100 1 0 (1/5) "put" (by norm_num)
    (Or.inl (by norm_num))).trans
    (by norm_num [testFns, if_neg (by decide : ¬ ("put" = "call"))])

/-- C2 counterexample: on a grid with fewer than 2 points nothing is
raised: calculate_breakevens returns the empty list, and analyze on the
one-point grid [5] completes normally with an ok result. -/
theorem short_grid_returns_result_not_error :
    calculate_breakevens (fun g => g.map (fun s => s - 1)) [5] = [] ∧
      ((LongCall.init testFns 100 100 1 (1/20) (1/5) (some 5)).analyze
        testFns [5] none).1.isOk = true := by
  constructor
  · norm_num [calculate_breakevens, breakevenScan, List.insertionSort]
  · norm_num [LongCallState.analyze, LongCallState.calculate_payoff, LongCall.init,
      OptionsStrategy.init, OptionsStrategyState.price_option, dget, dset,
      long_call_payoff, calculate_max_profit_loss, Except.isOk, Except.toBool]

/-- C2 amended: for every price grid with fewer than 2 points the
breakeven search returns the empty breakeven list instead of raising;
the scan loop body never runs, there is no DegenerateGrid error
anywhere, and analyze on a one-point grid completes normally (only the
zero-point grid makes analyze fail, in the later numpy max reduction,
not in the breakeven search). -/
theorem breakevens_empty_on_short_grid (payoff_func : List ℚ → List ℚ)
    (spot_range : List ℚ) (h : spot_range.length < 2) :
    calculate_breakevens payoff_func spot_range = [] := by
  unfold calculate_breakevens
  rcases spot_range with _ | ⟨x, _ | ⟨y, t⟩⟩
  · simp [breakevenScan, List.insertionSort]
  · rcases hp : payoff_func [x] with _ | ⟨v, vs⟩ <;>
      simp [hp, breakevenScan, List.insertionSort]
  · exfalso
    simp at h
    omega

/-- C2 witness: the empty grid yields an empty breakeven list. -/
theorem breakevens_empty_on_short_grid_witness :
    calculate_breakevens (fun g => g.map (fun s => s - 1)) [] = [] :=
  breakevens_empty_on_short_grid _ _ (by norm_num)

/-- C9: calculate_payoff with premium overrides leaves the stored state
(premiums, strikes, option kinds, positions, market parameters)
unchanged, analyze leaves it unchanged as well, and running analyze a
second time on the post-call state with the same grid and the same
overrides returns an identical result: there is no hidden state
advancement. -/
theorem analyze_pure_and_repeatable (M : MathFns) (self : LongCallState)
    (spot_range : List ℚ) (premium_overrides : Option (List (String × ℚ))) :
    (self.calculate_payoff spot_range premium_overrides).2 = self ∧
      (self.analyze M spot_range premium_overrides).2 = self ∧
      ((self.analyze M spot_range premium_overrides).2.analyze M spot_range
          premium_overrides).1
        = (self.analyze M spot_range premium_overrides).1 := by
  have han : (self.analyze M spot_range premium_overrides).2 = self := by
    unfold LongCallState.analyze
    simp only [LongCallState.calculate_payoff]
    split <;> rfl
  exact ⟨rfl, han, by rw [han]⟩

/-- C7 witness: on the one-point grid [100] with strikes 95 and 110 and
premiums 7 and 2, the single payoff value 0 lies within the stated
bounds -5 and 10. -/
theorem bull_call_spread_payoff_bounded_witness :
    -((7 : ℚ) - 2) ≤ 0 ∧ (0 : ℚ) ≤ (110 - 95) - (7 - 2) :=
  bull_call_spread_payoff_bounded [100] 95 110 7 2 (by norm_num) 0
    (by norm_num [bull_call_spread_payoff, max_def])
